import Mathlib

/-!
# Verification of the GhostMesh persistent vector memory store

Shallow embedding of `src/ghost_aweborne/cli.py` (the Persistent Vector
Memory Store: `_load_texts`, `_rebuild_index`, `_load_or_build_index`,
`retrieve_memories`, `maybe_append_soul`) and proofs of the spec claims.

Modelling conventions:
* Embedding vectors are abstract: the development is parametric in a type
  `V` of vectors and an embedding provider `embed : String → Option V`
  (`none` models a provider failure / raised exception).  `edim` models
  `emb.shape[1]`, the provider's output dimension.
* Python exceptions are modelled with `Except Err`; each constructor of
  `Err` names the concrete Python exception it stands for.
* A line of the soul file is modelled by the outcome of
  `line.strip()` / `json.loads(line)`, which are external to the store:
  blank after stripping, a JSON object with or without a `"text"` string
  field, JSON that parses but is not an object (on which `.get` raises
  `AttributeError`), or text that fails to parse (`json.JSONDecodeError`).
* The file system visible to the store is the soul file, the FAISS index
  file and the IdMap file; for the two persisted files we record absence,
  presence-but-corrupt, or presence with parsed content.
* `index.add` is faiss `IndexFlat.add`: its Python wrapper asserts that
  the added vector's dimension equals the index dimension
  (`assert d == self.d`) and raises `AssertionError` on a mismatch.  The
  model compares `edim`, the provider's output dimension, with the live
  index's `dim` before mutating it.
-/

/-- Python exceptions that the modelled code paths can raise. -/
inductive Err : Type
  /-- `json.JSONDecodeError` from `json.load(IDMAP_FILE.open())`. -/
  | jsonDecode : Err
  /-- failure of `faiss.read_index` on a corrupt index blob. -/
  | indexCorrupt : Err
  /-- `AttributeError` from `.get` on a non-object JSON value in `_load_texts`. -/
  | attrError : Err
  /-- failure of `embedder.encode` (provider error). -/
  | embedFail : Err
  /-- `IndexError` from indexing a Python list out of range. -/
  | indexError : Err
  /-- `AssertionError` from faiss `IndexFlat.add` (`assert d == self.d`)
  when the added vector's dimension differs from the index dimension. -/
  | dimAssert : Err
deriving DecidableEq, Repr

/-- Outcome of `line.strip()` and `json.loads` on one raw line of the soul
file.  `json.loads` itself is Python-stdlib functionality external to the
store, so a line is modelled by its parse outcome. -/
inductive Line : Type
  /-- the line strips to the empty string (skipped by `_load_texts`). -/
  | blank : Line
  /-- the stripped line parses as a JSON object; `textField` is the value of
  its `"text"` entry (`none` when the key is absent). -/
  | jsonObj (textField : Option String) : Line
  /-- the stripped line parses as JSON but not as an object, so
  `.get("text", "")` raises `AttributeError`. -/
  | jsonNonObj : Line
  /-- the stripped line fails to parse as JSON (`json.JSONDecodeError`);
  `raw` is the stripped line itself. -/
  | nonJson (raw : String) : Line
deriving DecidableEq, Repr

/-- `_load_texts`, lines 62-72: iterate over the lines of the soul file,
skipping blank lines, taking `json.loads(line).get("text", "")` when the
line parses, and falling back to the raw stripped line on
`json.JSONDecodeError`.  A line that parses as non-object JSON raises
`AttributeError`, which is not caught. -/
def loadTextsAux : List Line → Except Err (List String)
  | [] => .ok []
  | .blank :: rest => loadTextsAux rest
  | .jsonObj tf :: rest =>
    match loadTextsAux rest with
    | .error e => .error e
    | .ok ts => .ok (tf.getD "" :: ts)
  | .jsonNonObj :: _ => .error Err.attrError
  | .nonJson raw :: rest =>
    match loadTextsAux rest with
    | .error e => .error e
    | .ok ts => .ok (raw :: ts)

/-- `_load_texts`, lines 58-72: returns `[]` when the soul file does not
exist (`soul = none`), otherwise processes its lines in order. -/
def load_texts (soul : Option (List Line)) : Except Err (List String) :=
  match soul with
  | none => .ok []
  | some ls => loadTextsAux ls

/-- `faiss.IndexFlatIP`: a flat index is its dimension together with the
ordered list of inserted vectors; `index.add` appends after asserting
that the vector's dimension equals `dim`, and `index.ntotal` is
`vecs.length`. -/
structure Index (V : Type) : Type where
  dim : Nat
  vecs : List V
deriving DecidableEq, Repr

/-- The file-system state the store reads and writes at startup.  For the
two persisted files, `none` = file absent, `some none` = file present but
its content fails to deserialize, `some (some x)` = file present with
content `x`. -/
structure FS (V : Type) : Type where
  /-- the soul (log) file: `none` when `SOUL_FILE.exists()` is false. -/
  soul : Option (List Line)
  /-- `INDEX_FILE`: persisted FAISS blob, read by `faiss.read_index`. -/
  indexFile : Option (Option (Index V))
  /-- `IDMAP_FILE`: JSON array of integers, read by `json.load`. -/
  idmapFile : Option (Option (List Int))
deriving DecidableEq, Repr

/-- `embedder.encode` on a batch of texts: embeds each text, failing (the
exception propagates) as soon as the provider fails on any of them. -/
def batchEncode {V : Type} (embed : String → Option V) : List String → Option (List V)
  | [] => some []
  | t :: ts =>
    match embed t, batchEncode embed ts with
    | some v, some vs => some (v :: vs)
    | _, _ => none

/-- `_rebuild_index`, lines 74-86: with no texts, return a fresh sentinel
1-dimensional `IndexFlatIP` WITHOUT touching the persisted files (the
early return on line 78 skips lines 84-85); otherwise batch-embed all
texts, build an index of the embedding dimension over them, write the
index file and an IdMap `list(range(len(texts)))`, and return the index.
Returns the resulting file system alongside the index. -/
def rebuild_index {V : Type} (embed : String → Option V) (edim : Nat)
    (fs : FS V) (texts : List String) : Except Err (FS V × Index V) :=
  if texts.isEmpty then
    .ok (fs, { dim := 1, vecs := [] })
  else
    match batchEncode embed texts with
    | none => .error Err.embedFail
    | some embs =>
      let idx : Index V := { dim := edim, vecs := embs }
      .ok ({ fs with indexFile := some (some idx),
                     idmapFile := some (some ((List.range texts.length).map Int.ofNat)) },
           idx)

/-- `_load_or_build_index`, lines 88-93: load the texts; if both persisted
files exist, parse the IdMap (`json.load` raising on corrupt content) and,
when its length equals the number of texts, return
`faiss.read_index(INDEX_FILE)` (raising on a corrupt blob) together with
the texts; in every other case fall through to `_rebuild_index`. -/
def load_or_build_index {V : Type} (embed : String → Option V) (edim : Nat)
    (fs : FS V) : Except Err (FS V × Index V × List String) :=
  match load_texts fs.soul with
  | .error e => .error e
  | .ok texts =>
    match fs.indexFile, fs.idmapFile with
    | some idxBlob, some mapBlob =>
      match mapBlob with
      | none => .error Err.jsonDecode
      | some idmap =>
        if idmap.length = texts.length then
          match idxBlob with
          | none => .error Err.indexCorrupt
          | some idx => .ok (fs, idx, texts)
        else
          match rebuild_index embed edim fs texts with
          | .error e => .error e
          | .ok (fs2, idx) => .ok (fs2, idx, texts)
    | none, _ | some _, none =>
      match rebuild_index embed edim fs texts with
      | .error e => .error e
      | .ok (fs2, idx) => .ok (fs2, idx, texts)

/-- The reuse condition of `_load_or_build_index` (line 90-91): both
persisted files exist, the IdMap deserializes, and its length equals the
number of loaded log texts. -/
def reusable {V : Type} (fs : FS V) (n : Nat) : Prop :=
  ∃ idx idmap, fs.indexFile = some (some idx) ∧
    fs.idmapFile = some (some idmap) ∧ idmap.length = n

/-- Whether a modelled call returned normally (`true`) or raised (`false`). -/
def isOkE {E A : Type} : Except E A → Bool
  | .ok _ => true
  | .error _ => false

/-- Python list indexing `xs[i]` with an `int` index: a negative index
counts from the end of the list (`xs[-1]` is the last element); an index
outside `[-len(xs), len(xs))` raises `IndexError`. -/
def pyGetElem {A : Type} (xs : List A) (i : Int) : Except Err A :=
  let j : Int := if i < 0 then (xs.length : Int) + i else i
  if 0 ≤ j then
    match xs.get? j.toNat with
    | some x => .ok x
    | none => .error Err.indexError
  else .error Err.indexError

/-- The list comprehension on line 107 after its `if` filter: look each
remaining position up in `memories` with Python indexing semantics, left
to right, propagating any `IndexError`. -/
def gatherTexts (memories : List String) : List Int → Except Err (List String)
  | [] => .ok []
  | i :: rest =>
    match pyGetElem memories i with
    | .error e => .error e
    | .ok t =>
      match gatherTexts memories rest with
      | .error e => .error e
      | .ok ts => .ok (t :: ts)

/-- `retrieve_memories`, lines 101-107: return `[]` at once when
`memories` is empty; otherwise embed the query (the provider's failure
propagates), call `index.search(q_vec, k)` — FAISS is external, so the
positions it returns are a parameter `search` — and map the returned
positions `i` with `i < len(memories)` back to `memories[i]`. -/
def retrieve_memories {V : Type} (embed : String → Option V)
    (search : Index V → V → Nat → List Int) (index : Index V)
    (memories : List String) (query : String) (k : Nat) :
    Except Err (List String) :=
  if memories.isEmpty then .ok []
  else
    match embed query with
    | none => .error Err.embedFail
    | some qv =>
      gatherTexts memories
        ((search index qv k).filter (fun i => i < (memories.length : Int)))

/-- The single-quote character (code point 39), used by the f-string on
line 126. -/
def squote : String := String.singleton (Char.ofNat 39)

/-- The `text` composed on line 126:
`f"Ghost said: {reply!r-style quoting} in response to: {prompt}"`. -/
def appendEntryText (prompt reply : String) : String :=
  "Ghost said: " ++ squote ++ reply ++ squote ++ " in response to: " ++ squote ++ prompt ++ squote

/-- The live state of the store after startup: the durable soul-file log
(the `text` of each record, in order), the live FAISS index (`index`,
line 95), and the in-memory text sequence (`memories`, line 95). -/
structure StoreState (V : Type) : Type where
  log : List String
  index : Index V
  memories : List String
deriving DecidableEq, Repr

/-- `maybe_append_soul`, lines 125-133: compose the entry, append its
JSON line to the soul file (the modelled run assumes the durable write
succeeds), then embed the entry text; `index.add` on line 132 asserts
that the vector's dimension — `edim`, the provider's output dimension —
equals the live index's dimension, and only then is the vector appended
to the index and the entry to `memories`.  The second component records
the raised exception, if any: on an embedding failure (`Err.embedFail`)
or a dimension-assert failure in `index.add` (`Err.dimAssert`) the
exception propagates with the log keeping the line written on lines
127-128 while the index and `memories` are untouched. -/
def maybe_append_soul {V : Type} (embed : String → Option V) (edim : Nat)
    (s : StoreState V) (prompt reply : String) : StoreState V × Option Err :=
  let entry := appendEntryText prompt reply
  let s1 : StoreState V := { s with log := s.log ++ [entry] }
  match embed entry with
  | none => (s1, some Err.embedFail)
  | some v =>
    if s1.index.dim = edim then
      ({ s1 with index := { s1.index with vecs := s1.index.vecs ++ [v] },
                 memories := s1.memories ++ [entry] }, none)
    else (s1, some Err.dimAssert)

/-- Synchronized store state: `memories` mirrors the log, and index
position `i` holds the embedding of the text at log ordinal `i` (which
forces the index size to equal the log length). -/
def aligned {V : Type} (embed : String → Option V) (s : StoreState V) : Prop :=
  s.memories = s.log ∧
    List.Forall₂ (fun t v => embed t = some v) s.log s.index.vecs

/-- Run a sequence of `(prompt, reply)` appends through the store. -/
def appendAll {V : Type} (embed : String → Option V) (edim : Nat)
    (s : StoreState V) : List (String × String) → StoreState V
  | [] => s
  | pr :: rest => appendAll embed edim (maybe_append_soul embed edim s pr.1 pr.2).1 rest

/-! Concrete instances used to witness the parametric theorems and to
exercise the code on specific inputs. -/

/-- A concrete total embedding provider over `V := Nat`. -/
def natEmbed : String → Option Nat := fun t => some t.length

/-- An always-failing embedding provider. -/
def noneEmbed : String → Option Unit := fun _ => none

/-- A trivially succeeding embedding provider over `V := Unit`. -/
def unitEmbed : String → Option Unit := fun _ => some ()

/-- A live 2-vector index over `V := Unit`. -/
def idx2 : Index Unit := { dim := 1, vecs := [(), ()] }

/-- FAISS `search` on a 2-vector index with `k = 3`: both stored
positions followed by one `-1` entry — FAISS pads its result with `-1`
when the index holds fewer than `k` vectors. -/
def faissPad3 : Index Unit → Unit → Nat → List Int := fun _ _ _ => [0, 1, -1]

/-- FAISS `search` on a 2-vector index with `k = 4`: both stored
positions followed by two `-1` padding entries. -/
def faissPad4 : Index Unit → Unit → Nat → List Int := fun _ _ _ => [1, 0, -1, -1]

/-- The empty synchronized store state a fresh-store startup produces:
the dim-1 sentinel index, no log records, no memories (`V := Nat`). -/
def st0 : StoreState Nat := { log := [], index := { dim := 1, vecs := [] }, memories := [] }

/-- An empty synchronized store state whose index dimension matches the
embedding dimension used alongside it (`edim = 5`). -/
def st5 : StoreState Nat := { log := [], index := { dim := 5, vecs := [] }, memories := [] }

/-- An empty, freshly synchronized store state over `V := Unit`. -/
def st0u : StoreState Unit := { log := [], index := { dim := 1, vecs := [] }, memories := [] }

/-- A one-element append sequence. -/
def ops1 : List (String × String) := [("p", "r")]

/-- A persisted 1-vector index over `V := Nat`. -/
def idxW : Index Nat := { dim := 4, vecs := [5] }

/-- A synchronized on-disk state: one log record, a persisted index and a
length-1 IdMap. -/
def fsW : FS Nat :=
  { soul := some [Line.jsonObj (some "hello")],
    indexFile := some (some idxW),
    idmapFile := some (some [0]) }

/-- An on-disk state whose IdMap file exists but holds corrupt JSON. -/
def fsCorruptMap : FS Nat :=
  { soul := some [], indexFile := some (some idxW), idmapFile := some none }

/-- An on-disk state whose index blob is corrupt while the IdMap matches
the log length. -/
def fsCorruptBlob : FS Nat :=
  { soul := some [Line.jsonObj (some "hello")],
    indexFile := some none,
    idmapFile := some (some [0]) }

/-- A fresh store: the soul file exists and is empty, no persisted index
or IdMap. -/
def fsFresh : FS Nat := { soul := some [], indexFile := none, idmapFile := none }

/-- Claim C9 helper: `loadTextsAux` processed around a distinguished line. -/
theorem loadTextsAux_append (pre : List Line) (l : Line) (suf : List Line) :
    loadTextsAux (pre ++ l :: suf) =
      match loadTextsAux pre with
      | .error e => .error e
      | .ok a =>
        match loadTextsAux (l :: suf) with
        | .error e => .error e
        | .ok b => .ok (a ++ b) := by
  induction pre with
  | nil => cases h : loadTextsAux (l :: suf) <;> simp [loadTextsAux, h]
  | cons p pre ih =>
    cases p with
    | blank => simpa [loadTextsAux] using ih
    | jsonObj tf =>
      simp only [List.cons_append, loadTextsAux, List.append_eq]
      rw [ih]
      cases hp : loadTextsAux pre <;> cases h : loadTextsAux (l :: suf) <;> simp
    | jsonNonObj => simp [loadTextsAux]
    | nonJson raw =>
      simp only [List.cons_append, loadTextsAux, List.append_eq]
      rw [ih]
      cases hp : loadTextsAux pre <;> cases h : loadTextsAux (l :: suf) <;> simp

/-- C9 — Lenient log parsing: a non-blank line that fails to parse as JSON
is kept, contributing the raw stripped line itself as the record's text at
its position in the loaded sequence; malformed lines are never dropped. -/
theorem c9_lenient_parse (pre suf : List Line) (raw : String) :
    load_texts (some (pre ++ Line.nonJson raw :: suf)) =
      match loadTextsAux pre, loadTextsAux suf with
      | .ok a, .ok b => .ok (a ++ raw :: b)
      | .error e, _ => .error e
      | .ok _, .error e => .error e := by
  show loadTextsAux (pre ++ Line.nonJson raw :: suf) = _
  rw [loadTextsAux_append]
  cases loadTextsAux pre <;> cases h : loadTextsAux suf <;>
    simp [loadTextsAux, h]

/-- C10 — a line parsing as a JSON object with no `"text"` field is kept
and contributes the empty string as its record's text, at its position. -/
theorem c10_missing_text_field (pre suf : List Line) :
    load_texts (some (pre ++ Line.jsonObj none :: suf)) =
      match loadTextsAux pre, loadTextsAux suf with
      | .ok a, .ok b => .ok (a ++ "" :: b)
      | .error e, _ => .error e
      | .ok _, .error e => .error e := by
  show loadTextsAux (pre ++ Line.jsonObj none :: suf) = _
  rw [loadTextsAux_append]
  cases loadTextsAux pre <;> cases h : loadTextsAux suf <;>
    simp [loadTextsAux, h, Option.getD]

/-- C8 — Empty-store retrieve short-circuit: with zero stored memories,
`retrieve_memories` returns the empty sequence for every query and every
`k`, and this holds for EVERY embedding provider — in particular for the
provider that always fails — so the query is never embedded. -/
theorem c8_empty_store_retrieve {V : Type} (embed : String → Option V)
    (search : Index V → V → Nat → List Int) (index : Index V)
    (query : String) (k : Nat) :
    retrieve_memories embed search index [] query k = .ok [] := rfl

/-- C4 — the k-bound claim fails on the code: with 2 stored memories and
`k = 3`, FAISS pads its result with `-1`; the filter `i < len(memories)`
keeps `-1`, Python indexing maps `memories[-1]` to the LAST record, and
the call returns 3 results — more than the 2 stored memories. -/
theorem c4_count_bound_violated :
    retrieve_memories unitEmbed faissPad3 idx2 ["a", "b"] "q" 3 =
      .ok ["a", "b", "b"] ∧
    ¬ (["a", "b", "b"] : List String).length ≤ (["a", "b"] : List String).length :=
  ⟨rfl, by decide⟩

/-- C5 — out-of-range filtering fails for negative positions: with stored
memories `["a", "b"]` and a search result `[1, 0, -1, -1]`, the two `-1`
padding entries are NOT skipped (the guard only checks
`i < len(memories)`); each is mapped through `memories[-1]` to the last
record, so the call returns `["b", "a", "b", "b"]` instead of the
`["b", "a"]` the claim demands. -/
theorem c5_negative_position_not_skipped :
    retrieve_memories unitEmbed faissPad4 idx2 ["a", "b"] "q" 4 =
      .ok ["b", "a", "b", "b"] ∧
    (Except.ok ["b", "a", "b", "b"] : Except Err (List String)) ≠
      Except.ok ["b", "a"] :=
  ⟨rfl, by simp⟩

/-- C1 helper: on the fully successful path — the embedding succeeds and
the vector's dimension matches the index's — `maybe_append_soul` extends
the log, the index and `memories` together and raises nothing. -/
theorem maybe_append_soul_success {V : Type} (embed : String → Option V)
    (edim : Nat) (s : StoreState V) (p r : String) (v : V)
    (he : embed (appendEntryText p r) = some v) (hdim : s.index.dim = edim) :
    maybe_append_soul embed edim s p r =
      ({ log := s.log ++ [appendEntryText p r],
         index := { dim := s.index.dim, vecs := s.index.vecs ++ [v] },
         memories := s.memories ++ [appendEntryText p r] }, none) := by
  unfold maybe_append_soul
  simp [he, hdim]

/-- C1 helper: one append whose embedding succeeds preserves alignment
and the index dimension, provided the index dimension matches the
embedding dimension. -/
theorem aligned_append_step {V : Type} (embed : String → Option V)
    (edim : Nat) (s : StoreState V) (p r : String) (hs : aligned embed s)
    (hdim : s.index.dim = edim)
    (hv : (embed (appendEntryText p r)).isSome) :
    aligned embed (maybe_append_soul embed edim s p r).1 ∧
    (maybe_append_soul embed edim s p r).1.index.dim = edim := by
  cases he : embed (appendEntryText p r) with
  | none => rw [he] at hv; simp at hv
  | some v =>
    rw [maybe_append_soul_success embed edim s p r v he hdim]
    refine ⟨⟨by simp [hs.1], ?_⟩, hdim⟩
    exact List.rel_append hs.2 (List.Forall₂.cons he List.Forall₂.nil)

/-- C1 helper: alignment and the index dimension are preserved by every
prefix of a sequence of appends whose embeddings all succeed, starting
from a state whose index dimension matches the embedding dimension. -/
theorem aligned_appendAll {V : Type} (embed : String → Option V)
    (edim : Nat) (ops : List (String × String)) :
    ∀ s : StoreState V, aligned embed s → s.index.dim = edim →
      (∀ pr ∈ ops, (embed (appendEntryText pr.1 pr.2)).isSome) →
      ∀ n : Nat, aligned embed (appendAll embed edim s (ops.take n)) ∧
        (appendAll embed edim s (ops.take n)).index.dim = edim := by
  induction ops with
  | nil =>
    intro s hs hdim _ n
    rw [List.take_nil]
    exact ⟨hs, hdim⟩
  | cons pr rest ih =>
    intro s hs hdim hsucc n
    cases n with
    | zero => exact ⟨hs, hdim⟩
    | succ m =>
      rw [List.take_succ_cons]
      show aligned embed (appendAll embed edim
          (maybe_append_soul embed edim s pr.1 pr.2).1 (rest.take m)) ∧
        (appendAll embed edim
          (maybe_append_soul embed edim s pr.1 pr.2).1 (rest.take m)).index.dim = edim
      have hstep := aligned_append_step embed edim s pr.1 pr.2 hs hdim
        (hsucc pr (List.mem_cons_self pr rest))
      exact ih (maybe_append_soul embed edim s pr.1 pr.2).1 hstep.1 hstep.2
        (fun q hq => hsucc q (List.mem_cons_of_mem pr hq)) m

/-- C1 counterexample: the alignment invariant as claimed is false of the
program on the reachable fresh store.  Startup on a fresh store returns
the dim-1 sentinel index (line 78) while the embedder emits vectors of
its own fixed dimension (384 for `all-MiniLM-L6-v2`); from that
synchronized state, the first append's log write and embedding both
succeed, yet `index.add` raises its dimension assertion after the log
write, leaving a log of length 1 against an index with 0 vectors and an
empty in-memory text sequence. -/
theorem c1_counterexample_dim_assert :
    load_or_build_index natEmbed 384 fsFresh =
      Except.ok (fsFresh, { dim := 1, vecs := [] }, []) ∧
    st0.memories = st0.log ∧
    st0.index.vecs.length = st0.log.length ∧
    (natEmbed (appendEntryText "p" "r")).isSome = true ∧
    (maybe_append_soul natEmbed 384 st0 "p" "r").2 = some Err.dimAssert ∧
    (maybe_append_soul natEmbed 384 st0 "p" "r").1.log.length = 1 ∧
    (maybe_append_soul natEmbed 384 st0 "p" "r").1.index.vecs.length = 0 ∧
    (maybe_append_soul natEmbed 384 st0 "p" "r").1.memories.length = 0 :=
  ⟨rfl, rfl, rfl, rfl, rfl, rfl, rfl, rfl⟩

/-- C1 (amended) — Alignment invariant: starting from a synchronized
state WHOSE LIVE INDEX DIMENSION EQUALS THE EMBEDDING DIMENSION (true of
every index rebuilt from at least one text, but not of the fresh-store
dim-1 sentinel unless the embedder is 1-dimensional), for any sequence
of appends in which every log write (assumed durable in the model) and
every embedding succeeds, after each prefix of the sequence the store is
still synchronized: `memories` mirrors the log, index position `i` holds
the embedding of the text at ordinal `i`, and the number of vectors in
the live index equals the length of the in-memory text sequence, which
equals the log length. -/
theorem c1_alignment_invariant {V : Type} (embed : String → Option V)
    (edim : Nat) (s : StoreState V) (ops : List (String × String))
    (hs : aligned embed s) (hdim : s.index.dim = edim)
    (hsucc : ∀ pr ∈ ops, (embed (appendEntryText pr.1 pr.2)).isSome) :
    ∀ n : Nat,
      aligned embed (appendAll embed edim s (ops.take n)) ∧
      (appendAll embed edim s (ops.take n)).index.vecs.length =
        (appendAll embed edim s (ops.take n)).memories.length ∧
      (appendAll embed edim s (ops.take n)).memories.length =
        (appendAll embed edim s (ops.take n)).log.length := by
  intro n
  have h := (aligned_appendAll embed edim ops s hs hdim hsucc n).1
  refine ⟨h, ?_, by rw [h.1]⟩
  rw [h.1]
  exact (List.Forall₂.length_eq h.2).symm

/-- Witness for the amended C1: the invariant instantiated at a concrete
provider, an empty synchronized store whose index dimension matches the
embedding dimension, and a one-append sequence. -/
theorem c1_alignment_invariant_witness :
    aligned natEmbed st5 ∧
    st5.index.dim = 5 ∧
    (∀ pr ∈ ops1, (natEmbed (appendEntryText pr.1 pr.2)).isSome) ∧
    ∀ n : Nat,
      aligned natEmbed (appendAll natEmbed 5 st5 (ops1.take n)) ∧
      (appendAll natEmbed 5 st5 (ops1.take n)).index.vecs.length =
        (appendAll natEmbed 5 st5 (ops1.take n)).memories.length ∧
      (appendAll natEmbed 5 st5 (ops1.take n)).memories.length =
        (appendAll natEmbed 5 st5 (ops1.take n)).log.length :=
  ⟨⟨rfl, List.Forall₂.nil⟩, rfl, fun _ _ => rfl,
    c1_alignment_invariant natEmbed 5 st5 ops1 ⟨rfl, List.Forall₂.nil⟩ rfl
      (fun _ _ => rfl)⟩

/-- C3 counterexample: from the empty synchronized store, an append whose
embedding fails leaves the durable log with 1 record while the live index
still holds 0 vectors: the append was partially applied, and the log is
no longer consistent with the index. -/
theorem c3_counterexample_partial_append :
    st0u.log.length = st0u.index.vecs.length ∧
    (maybe_append_soul noneEmbed 1 st0u "p" "r").1.log.length = 1 ∧
    (maybe_append_soul noneEmbed 1 st0u "p" "r").1.index.vecs.length = 0 ∧
    (maybe_append_soul noneEmbed 1 st0u "p" "r").1.log.length ≠
      (maybe_append_soul noneEmbed 1 st0u "p" "r").1.index.vecs.length := by
  decide

/-- C3 (amended) — on an embedding failure after the log write,
`maybe_append_soul` propagates the failure with the live index and the
in-memory text sequence untouched (the index is never mutated before the
log write succeeds), while the durable log keeps the record that was
already written; the resulting length mismatch is what the next startup's
freshness check detects. -/
theorem c3_amended_append_abort {V : Type} (embed : String → Option V)
    (edim : Nat) (s : StoreState V) (prompt reply : String)
    (hfail : embed (appendEntryText prompt reply) = none) :
    maybe_append_soul embed edim s prompt reply =
      ({ s with log := s.log ++ [appendEntryText prompt reply] },
       some Err.embedFail) := by
  unfold maybe_append_soul
  simp only [hfail]

/-- Witness for the amended C3 at a concrete failing provider and store. -/
theorem c3_amended_append_abort_witness :
    noneEmbed (appendEntryText "p" "r") = none ∧
    maybe_append_soul noneEmbed 1 st0u "p" "r" =
      ({ st0u with log := st0u.log ++ [appendEntryText "p" "r"] },
       some Err.embedFail) :=
  ⟨rfl, c3_amended_append_abort noneEmbed 1 st0u "p" "r" rfl⟩

/-- C2 — Startup reuse decision: provided every file that is present is
readable (corrupt files are the subject of the C6 analysis),
`_load_or_build_index` returns the persisted index unchanged — and does
so for EVERY embedding provider, i.e. without invoking the embedder —
exactly when the index file and the IdMap file both exist and the parsed
IdMap's length equals the number of loaded log texts; with either file
absent or the lengths mismatched, the call takes the full rebuild path. -/
theorem c2_reuse_decision {V : Type} (embed : String → Option V) (edim : Nat)
    (fs : FS V) (texts : List String)
    (hload : load_texts fs.soul = .ok texts)
    (hidx : fs.indexFile ≠ some none)
    (hmap : fs.idmapFile ≠ some none) :
    (∀ idx idmap, fs.indexFile = some (some idx) →
        fs.idmapFile = some (some idmap) → idmap.length = texts.length →
        ∀ embed2 : String → Option V,
          load_or_build_index embed2 edim fs = .ok (fs, idx, texts)) ∧
    (¬ reusable fs texts.length →
        load_or_build_index embed edim fs =
          match rebuild_index embed edim fs texts with
          | .error e => .error e
          | .ok (fs2, idx) => .ok (fs2, idx, texts)) := by
  constructor
  · intro idx idmap h1 h2 h3 embed2
    unfold load_or_build_index
    rw [hload, h1, h2]
    simp [h3]
  · intro hnr
    unfold load_or_build_index
    rw [hload]
    cases hI : fs.indexFile with
    | none => cases hM : fs.idmapFile <;> rfl
    | some iblob =>
      cases hM : fs.idmapFile with
      | none => rfl
      | some mblob =>
        cases mblob with
        | none => exact absurd hM hmap
        | some idmap =>
          cases iblob with
          | none => exact absurd hI hidx
          | some idx =>
            have hlen : ¬ idmap.length = texts.length :=
              fun h => hnr ⟨idx, idmap, hI, hM, h⟩
            simp [hlen]

/-- Witness for C2 on a concrete synchronized on-disk state: one log
record, a persisted index and a length-1 IdMap, yielding the reuse path. -/
theorem c2_reuse_decision_witness :
    load_texts fsW.soul = Except.ok ["hello"] ∧
    fsW.indexFile ≠ some none ∧ fsW.idmapFile ≠ some none ∧
    load_or_build_index natEmbed 4 fsW = Except.ok (fsW, idxW, ["hello"]) := by
  refine ⟨rfl, by decide, by decide, ?_⟩
  exact (c2_reuse_decision natEmbed 4 fsW ["hello"] rfl (by decide) (by decide)).1
    idxW [0] rfl rfl rfl natEmbed

/-- C6 counterexample: with the IdMap file present but holding corrupt
JSON, startup raises `json.JSONDecodeError` instead of falling back to a
rebuild — no `(index, texts)` pair is returned to the caller. -/
theorem c6_counterexample_corrupt_idmap :
    load_or_build_index natEmbed 4 fsCorruptMap = .error Err.jsonDecode ∧
    isOkE (load_or_build_index natEmbed 4 fsCorruptMap) = false := by
  exact ⟨rfl, rfl⟩

/-- C6 (amended) — absence of either persisted file, or an IdMap length
mismatch, forces a rebuild (the C2 theorem), but reuse-path failures ARE
fatal: a corrupt IdMap file raises `json.JSONDecodeError`, and a corrupt
index blob next to a length-matching IdMap raises on `faiss.read_index`;
both propagate to the caller instead of falling back to a rebuild. -/
theorem c6_amended_corruption_propagates {V : Type} (embed : String → Option V)
    (edim : Nat) (fs : FS V) (texts : List String)
    (hload : load_texts fs.soul = .ok texts) :
    (∀ b, fs.indexFile = some b → fs.idmapFile = some none →
        load_or_build_index embed edim fs = .error Err.jsonDecode) ∧
    (∀ idmap, fs.indexFile = some none → fs.idmapFile = some (some idmap) →
        idmap.length = texts.length →
        load_or_build_index embed edim fs = .error Err.indexCorrupt) := by
  constructor
  · intro b h1 h2
    unfold load_or_build_index
    rw [hload, h1, h2]
  · intro idmap h1 h2 h3
    unfold load_or_build_index
    rw [hload, h1, h2]
    simp [h3]

/-- Witness for the amended C6 at the two concrete corrupt states. -/
theorem c6_amended_corruption_propagates_witness :
    load_texts fsCorruptMap.soul = Except.ok [] ∧
    load_texts fsCorruptBlob.soul = Except.ok ["hello"] ∧
    load_or_build_index natEmbed 4 fsCorruptMap = Except.error Err.jsonDecode ∧
    load_or_build_index natEmbed 4 fsCorruptBlob = Except.error Err.indexCorrupt := by
  refine ⟨rfl, rfl, ?_, ?_⟩
  · exact (c6_amended_corruption_propagates natEmbed 4 fsCorruptMap [] rfl).1
      (some idxW) rfl rfl
  · exact (c6_amended_corruption_propagates natEmbed 4 fsCorruptBlob ["hello"] rfl).2
      [0] rfl rfl rfl

/-- C7 counterexample: on a fresh store (an empty soul file and no
persisted files), the zero-text rebuild — and the whole startup built on
it — returns the sentinel empty index but leaves the file system
unchanged: neither the index file nor an empty IdMap is persisted. -/
theorem c7_counterexample_nothing_persisted :
    rebuild_index natEmbed 4 fsFresh [] =
      .ok (fsFresh, { dim := 1, vecs := [] }) ∧
    load_or_build_index natEmbed 4 fsFresh =
      .ok (fsFresh, { dim := 1, vecs := [] }, []) ∧
    fsFresh.indexFile = none ∧ fsFresh.idmapFile = none :=
  ⟨rfl, rfl, rfl, rfl⟩

/-- C7 (amended) — rebuilding with zero texts produces a valid, queryable
empty sentinel index (dimension 1, zero vectors) but does NOT persist it:
the file system is returned unchanged, for every starting file-system
state; the index and IdMap files are written only when there is at least
one text. -/
theorem c7_amended_empty_rebuild {V : Type} (embed : String → Option V)
    (edim : Nat) (fs : FS V) :
    rebuild_index embed edim fs [] = .ok (fs, { dim := 1, vecs := [] }) := rfl
